import Mathlib

/-!
Verification development for the FavHome Deliveries service (`app.py`).

The Python source is shallowly embedded below. Strings are handled at the
`List Char` level with Python-faithful helpers (substring membership via
`in`, `str.split(sep)[0]`, `int(...)` parsing, truthiness of strings,
numbers and byte blobs). Machine-level concerns that the source delegates
to libraries (base64 decoding, ISO-8601 parsing, SHA-256) are modelled at
their interfaces, as documented on each definition.
-/

namespace Favhome

/-! ### Python string primitives -/

/-- Python list/string prefix test used by the substring helper. -/
def prefAt : List Char → List Char → Bool
  | [], _ => true
  | _ :: _, [] => false
  | a :: as, b :: bs => a = b && prefAt as bs

/-- Python `needle in haystack` substring test on character lists. -/
def infAt (needle : List Char) : List Char → Bool
  | [] => needle.isEmpty
  | b :: bs => prefAt needle (b :: bs) || infAt needle bs

/-- Python `sub in s` for a string literal `sub` against a character list. -/
def pySub (sub : String) (s : List Char) : Bool :=
  infAt sub.data s

/-- Python `s.split(sep)[0]`: the characters before the first occurrence of
`sep` (the whole list when `sep` does not occur). `sep` is nonempty at every
use site, matching Python which rejects an empty separator. -/
def beforeFirst (sep : String) : List Char → List Char
  | [] => []
  | b :: bs => if prefAt sep.data (b :: bs) then [] else b :: beforeFirst sep bs

/-- Digit run accepted by Python `int`, with single underscores allowed
between digits (`1_0` parses, `1__0`, `1_`, `_1` do not). -/
def digitsCore (acc : Nat) : List Char → Option Nat
  | [] => some acc
  | c :: rest =>
    if c.isDigit then digitsCore (10 * acc + (c.toNat - 48)) rest
    else if c = '_' then
      match rest with
      | d :: rest2 =>
        if d.isDigit then digitsCore (10 * acc + (d.toNat - 48)) rest2 else none
      | [] => none
    else none

/-- Unsigned digit parse: nonempty, starts with a digit. -/
def digitsNum : List Char → Option Nat
  | [] => none
  | d :: rest => if d.isDigit then digitsCore (d.toNat - 48) rest else none

/-- Python `int(s)`: strip surrounding whitespace, optional sign, digit run.
Returns `none` where Python raises `ValueError`. -/
def pyInt (l : List Char) : Option Int :=
  let l := (l.dropWhile Char.isWhitespace).reverse.dropWhile Char.isWhitespace |>.reverse
  match l with
  | '+' :: rest => (digitsNum rest).map Int.ofNat
  | '-' :: rest => (digitsNum rest).map (fun n => -(Int.ofNat n))
  | rest => (digitsNum rest).map Int.ofNat

/-- Python `s.isdigit()` (restricted to ASCII digits, the only inputs the
service meets): nonempty and all digits. -/
def pyIsDigit (l : List Char) : Bool :=
  !l.isEmpty && l.all Char.isDigit

/-- Python `s.lower()` on the ASCII range. -/
def pyLower (l : List Char) : List Char :=
  l.map Char.toLower

/-- Python `s.strip()` of surrounding whitespace. -/
def pyStrip (l : List Char) : List Char :=
  ((l.dropWhile Char.isWhitespace).reverse.dropWhile Char.isWhitespace).reverse

/-! ### Fee calculator (`app.py` lines 370-413) -/

/-- `normalize_location` from `app.py`: `(s or '').strip().lower()`. -/
def normalize_location (s : String) : List Char :=
  pyLower (pyStrip s.data)

/-- `is_night_time` from `app.py` lines 373-391, branch for branch: the
`pm` branch computes `int(...) % 12 + 12`, the `am` branch `int(...) % 24`,
the `HH:MM` branch takes the integer before the colon as-is, a bare digit
string is taken mod 24, and every parse failure is swallowed to `False`. -/
def is_night_time (tstr : String) : Bool :=
  if tstr = "" then false
  else
    let s := (pyLower tstr.data).filter (fun c => c ≠ ' ')
    if pySub "pm" s then
      match pyInt (beforeFirst ":" (beforeFirst "pm" s)) with
      | some n => let h := n % 12 + 12; decide (h ≥ 21 ∨ h < 6)
      | none => false
    else if pySub "am" s then
      match pyInt (beforeFirst ":" (beforeFirst "am" s)) with
      | some n => let h := n % 24; decide (h < 6)
      | none => false
    else if pySub ":" s then
      match pyInt (beforeFirst ":" s) with
      | some h => decide (h ≥ 21 ∨ h < 6)
      | none => false
    else if pyIsDigit s then
      match pyInt s with
      | some n => let h := n % 24; decide (h ≥ 21 ∨ h < 6)
      | none => false
    else false

/-- The local-zone test of `compute_fee` (`app.py` line 397): both
normalized locations contain `ebenezer`, or both contain `matangi`. -/
def local_zone (p d : List Char) : Bool :=
  (pySub "ebenezer" p && pySub "ebenezer" d) || (pySub "matangi" p && pySub "matangi" d)

/-- The secondary-zone test of `compute_fee` (`app.py` line 399): `juja` in
either normalized location, or `jk`/`jkuat` in the pickup only. -/
def secondary_zone (p d : List Char) : Bool :=
  pySub "juja" p || pySub "juja" d || pySub "jk" p || pySub "jkuat" p

/-- Base-fee selection of `compute_fee` (`app.py` lines 394-402). -/
def base_fee (pickup drop : String) : Int :=
  let p := normalize_location pickup
  let d := normalize_location drop
  if local_zone p d then 79
  else if secondary_zone p d then 99
  else 150

/-- Grocery keyword set of `compute_fee` (`app.py` line 404). -/
def groceryKeywords : List String :=
  ["supermarket", "shop", "market", "grocery", "groceries"]

/-- Heavy-item keyword set of `compute_fee` (`app.py` line 407). -/
def heavyKeywords : List String :=
  ["water", "jerry", "sack", "sacks", "big", "heavy"]

/-- `compute_fee` from `app.py` lines 393-413: base fee by zone, then the
three additive surcharges appended in source order. -/
def compute_fee (pickup drop items preferred_time : String) : Int × List String :=
  let it := pyLower items.data
  let base := base_fee pickup drop
  let extras : List String := []
  let (base, extras) :=
    if groceryKeywords.any (fun k => pySub k it) then
      (base + 20, extras ++ ["supermarket_pickup"]) else (base, extras)
  let (base, extras) :=
    if heavyKeywords.any (fun k => pySub k it) then
      (base + 40, extras ++ ["heavy_item"]) else (base, extras)
  let (base, extras) :=
    if is_night_time preferred_time then
      (base + 30, extras ++ ["night"]) else (base, extras)
  (base, extras)

/-- Canonical two-digit decimal string for `n < 100`. -/
def two2 (n : Nat) : String :=
  ⟨[Char.ofNat (48 + n / 10), Char.ofNat (48 + n % 10)]⟩

/-- Shortest decimal string for `n < 100`. -/
def natStr (n : Nat) : String :=
  if n < 10 then ⟨[Char.ofNat (48 + n)]⟩ else two2 n

/-- C4 counterexample: the claim asserts `is_night_time("12am") = true`
(reading 12am as hour 0), but the `am` branch computes `int(...) % 24`,
mapping `12am` to hour 12, which is not in the night window. -/
theorem C4_counterexample : is_night_time "12am" = false := by decide

/-- C4 (amended): `is_night_time` matches the spec examples, and on
well-formed times agrees with the night window [21,24) ∪ [0,6) — except
that `12am` is taken to hour 12 (not 0) and therefore is not night. -/
theorem C4_night_time_amended :
    is_night_time "22:00" = true ∧
    is_night_time "06:00" = false ∧
    is_night_time "" = false ∧
    is_night_time "9pm" = true ∧
    is_night_time "12am" = false ∧
    (∀ h : Nat, h < 24 → ∀ m : Nat, m < 60 →
      is_night_time (two2 h ++ ":" ++ two2 m) = decide (21 ≤ h ∨ h < 6)) ∧
    (∀ h : Nat, 1 ≤ h → h ≤ 12 →
      is_night_time (natStr h ++ "pm") = decide (9 ≤ h ∧ h ≤ 11)) ∧
    (∀ h : Nat, 1 ≤ h → h ≤ 12 →
      is_night_time (natStr h ++ "am") = decide (h ≤ 5)) ∧
    (∀ n : Nat, n < 24 → is_night_time (natStr n) = decide (21 ≤ n ∨ n < 6)) := by
  refine ⟨by decide, by decide, by decide, by decide, by decide, ?_, ?_, ?_, ?_⟩
  all_goals decide

/-- Witness for the amended C4 theorem at hour 21, minute 30. -/
theorem C4_night_time_amended_witness :
    is_night_time (two2 21 ++ ":" ++ two2 30) = decide (21 ≤ 21 ∨ 21 < 6) :=
  C4_night_time_amended.2.2.2.2.2.1 21 (by decide) 30 (by decide)

/-- C5 counterexample: the claim makes the secondary-zone abbreviation
symmetric in pickup and drop, but a drop location containing `jkuat`
(and no `juja`) yields base 150, not 99. -/
theorem C5_counterexample :
    compute_fee "nairobi" "jkuat" "" "" = (150, []) ∧
    (compute_fee "nairobi" "jkuat" "" "").1 ≠ 99 := by decide

/-- C5 (amended): outside the local zone, base 99 is selected exactly when
`juja` occurs in either normalized location or the abbreviation `jk`/`jkuat`
occurs in the pickup only; otherwise base 150. The abbreviation test is not
symmetric: `jkuat` as pickup gives 99, as drop gives 150. With empty items
and time, `compute_fee` returns exactly the base fee and no tags. -/
theorem C5_base_fee_amended (pickup drop : String)
    (hl : local_zone (normalize_location pickup) (normalize_location drop) = false) :
    ((pySub "juja" (normalize_location pickup) || pySub "juja" (normalize_location drop) ||
        pySub "jk" (normalize_location pickup) || pySub "jkuat" (normalize_location pickup)) = true →
      base_fee pickup drop = 99) ∧
    ((pySub "juja" (normalize_location pickup) || pySub "juja" (normalize_location drop) ||
        pySub "jk" (normalize_location pickup) || pySub "jkuat" (normalize_location pickup)) = false →
      base_fee pickup drop = 150) ∧
    compute_fee pickup drop "" "" = (base_fee pickup drop, []) ∧
    base_fee "jkuat" "nairobi" = 99 ∧
    base_fee "nairobi" "jkuat" = 150 := by
  have hg : groceryKeywords.any (fun k => pySub k (pyLower ("" : String).data)) = false := by
    decide
  have hh : heavyKeywords.any (fun k => pySub k (pyLower ("" : String).data)) = false := by
    decide
  have hn : is_night_time "" = false := by decide
  refine ⟨?_, ?_, ?_, by decide, by decide⟩
  · intro h
    simp [base_fee, secondary_zone, hl, h]
  · intro h
    simp [base_fee, secondary_zone, hl, h]
  · simp [compute_fee, hg, hh, hn]

/-- Witness for the amended C5 theorem. -/
theorem C5_base_fee_amended_witness : base_fee "juja town" "nairobi" = 99 :=
  (C5_base_fee_amended "juja town" "nairobi" (by decide)).1 (by decide)

/-- C6: the end-to-end fee example from the spec: local zone base 79 plus
all three surcharges gives 169 with the three tags in source order. -/
theorem C6_end_to_end :
    compute_fee "Ebenezer Hostel" "Ebenezer Gate" "groceries and water" "10pm" =
      (169, ["supermarket_pickup", "heavy_item", "night"]) ∧
    base_fee "Ebenezer Hostel" "Ebenezer Gate" = 79 := by decide

/-- C7: surcharges are additive and independent: any item text containing
both a grocery keyword and a heavy keyword yields both tags, and the fee is
the base fee plus 20 plus 40 plus 30 exactly when the time is night. -/
theorem C7_surcharges_additive (pickup drop items preferred_time : String)
    (hg : groceryKeywords.any (fun k => pySub k (pyLower items.data)) = true)
    (hh : heavyKeywords.any (fun k => pySub k (pyLower items.data)) = true) :
    "supermarket_pickup" ∈ (compute_fee pickup drop items preferred_time).2 ∧
    "heavy_item" ∈ (compute_fee pickup drop items preferred_time).2 ∧
    (compute_fee pickup drop items preferred_time).1 =
      base_fee pickup drop + 20 + 40 +
        (if is_night_time preferred_time then 30 else 0) := by
  cases hn : is_night_time preferred_time <;>
    simp [compute_fee, hg, hh, hn]

/-- Witness for C7 on a concrete grocery-plus-heavy order. -/
theorem C7_surcharges_additive_witness :
    "supermarket_pickup" ∈ (compute_fee "a" "b" "groceries and water" "10pm").2 ∧
    "heavy_item" ∈ (compute_fee "a" "b" "groceries and water" "10pm").2 ∧
    (compute_fee "a" "b" "groceries and water" "10pm").1 =
      base_fee "a" "b" + 20 + 40 + (if is_night_time "10pm" then 30 else 0) :=
  C7_surcharges_additive "a" "b" "groceries and water" "10pm" (by decide) (by decide)

/-! ### Admin authorization and field edits (`app.py` lines 320-440, 866-898)

The Flask request is modelled by the values the handlers actually read:
the `X-ADMIN-KEY` header, the `admin_key` query parameter, and the three
JSON body spellings. `None` is `Option.none`; Python string truthiness
(empty string falsy) is `pyTruthyStr`. The admin password stored in
`app.db` is an `Option String` (`none` when the row is missing or the
query raises, which `is_admin_key` swallows to `False`). -/

/-- Python `a or b` on optional strings (empty string is falsy). -/
def pyOrStr (a b : Option String) : Option String :=
  match a with
  | some s => if s = "" then b else some s
  | none => b

/-- Python truthiness of an optional string. -/
def pyTruthyStr (a : Option String) : Bool :=
  match a with
  | some s => s ≠ ""
  | none => false

/-- The key-bearing parts of a Flask request, as read by `require_admin`. -/
structure AdminRequest where
  headerKey : Option String
  queryKey : Option String
  isJson : Bool
  bodyAdminKey : Option String
  bodyAdminKeyCamel : Option String
  bodyAdmin : Option String
deriving DecidableEq

/-- `is_admin_key` from `app.py` lines 347-359: compare against the single
password row of `app.db`; a missing row or a raised exception gives `False`. -/
def is_admin_key (k : String) (dbPassword : Option String) : Bool :=
  match dbPassword with
  | none => false
  | some pw => k = pw

/-- `require_admin` from `app.py` lines 415-440. Per the design notes the
resolved `ADMIN_KEY` configuration value is passed as a parameter. -/
def require_admin (ADMIN_KEY : String) (dbPassword : Option String)
    (req : AdminRequest) : Bool :=
  let key := pyOrStr req.headerKey req.queryKey
  let key :=
    if !pyTruthyStr key && req.isJson then
      pyOrStr (pyOrStr req.bodyAdminKey req.bodyAdminKeyCamel) req.bodyAdmin
    else key
  if !pyTruthyStr key then false
  else if key.getD "" = ADMIN_KEY then true
  else if is_admin_key (key.getD "") dbPassword then true
  else false

/-- A dynamically typed SQLite cell, as stored by the edit handlers. -/
inductive SqlVal where
  | nullv : SqlVal
  | intv : Int → SqlVal
  | textv : String → SqlVal
deriving DecidableEq

/-- A row of the `orders` table (schema from `init_main_db`). The two
admin-editable columns are `SqlVal` since the handler writes the raw JSON
value. -/
structure OrderRow where
  id : Nat
  name : String
  phone : String
  pickup : SqlVal
  drop_loc : SqlVal
  items : String
  preferred_time : String
  payment : String
  payment_status : String
  fee : Int
  extras : String
  status : String
  created_at : String
deriving DecidableEq

/-- A row of the `market` table (schema from `init_main_db`). -/
structure MarketRow where
  id : Nat
  seller_name : String
  phone : String
  title : SqlVal
  description : SqlVal
  price : SqlVal
  payment : String
  image : String
  status : String
  created_at : String
deriving DecidableEq

/-- `edit_order` from `app.py` lines 866-881: admin check, allow-list check
on the field name, then `UPDATE orders SET {field}=? WHERE id=?`. The
post-mutation GitHub push does not touch the row store and is elided.
Result: the new table contents plus HTTP status and body. -/
def edit_order (ADMIN_KEY : String) (dbPassword : Option String)
    (req : AdminRequest) (db : List OrderRow) (oid : Nat)
    (field : Option String) (value : SqlVal) :
    List OrderRow × Nat × String :=
  if !require_admin ADMIN_KEY dbPassword req then (db, 401, "unauthorized")
  else if field ≠ some "pickup" ∧ field ≠ some "drop_loc" then
    (db, 400, "invalid field")
  else
    let f := field.getD ""
    (db.map (fun r =>
      if r.id = oid then
        if f = "pickup" then { r with pickup := value }
        else { r with drop_loc := value }
      else r), 200, "ok")

/-- `edit_market` from `app.py` lines 883-898, the market-side analogue. -/
def edit_market (ADMIN_KEY : String) (dbPassword : Option String)
    (req : AdminRequest) (db : List MarketRow) (mid : Nat)
    (field : Option String) (value : SqlVal) :
    List MarketRow × Nat × String :=
  if !require_admin ADMIN_KEY dbPassword req then (db, 401, "unauthorized")
  else if field ≠ some "title" ∧ field ≠ some "description" ∧ field ≠ some "price" then
    (db, 400, "invalid field")
  else
    let f := field.getD ""
    (db.map (fun r =>
      if r.id = mid then
        if f = "title" then { r with title := value }
        else if f = "description" then { r with description := value }
        else { r with price := value }
      else r), 200, "ok")

/-- Combining two falsy optional strings with Python `or` stays falsy. -/
theorem pyOrStr_empty {a b : Option String}
    (ha : a = none ∨ a = some "") (hb : b = none ∨ b = some "") :
    pyOrStr a b = none ∨ pyOrStr a b = some "" := by
  rcases ha with h | h <;> rcases hb with h2 | h2 <;> simp [pyOrStr, h, h2]

/-- A falsy optional string fails the Python truthiness test. -/
theorem pyTruthyStr_empty {a : Option String} (ha : a = none ∨ a = some "") :
    pyTruthyStr a = false := by
  rcases ha with h | h <;> simp [pyTruthyStr, h]

/-- C9: admin field edits are restricted to the per-entity allow-list:
`edit_order` mutates the table only for `pickup`/`drop_loc`, `edit_market`
only for `title`/`description`/`price`; any other field name yields an
`invalid field` 400 response and leaves the table untouched. -/
theorem C9_field_allow_list (AK : String) (dbPw : Option String)
    (req : AdminRequest) (dbO : List OrderRow) (oid : Nat)
    (dbM : List MarketRow) (mid : Nat) (field : Option String) (value : SqlVal)
    (hauth : require_admin AK dbPw req = true) :
    (field ≠ some "pickup" → field ≠ some "drop_loc" →
      edit_order AK dbPw req dbO oid field value = (dbO, 400, "invalid field")) ∧
    ((edit_order AK dbPw req dbO oid field value).1 ≠ dbO →
      field = some "pickup" ∨ field = some "drop_loc") ∧
    (field ≠ some "title" → field ≠ some "description" → field ≠ some "price" →
      edit_market AK dbPw req dbM mid field value = (dbM, 400, "invalid field")) ∧
    ((edit_market AK dbPw req dbM mid field value).1 ≠ dbM →
      field = some "title" ∨ field = some "description" ∨ field = some "price") := by
  refine ⟨?_, ?_, ?_, ?_⟩
  · intro h1 h2
    simp [edit_order, hauth, h1, h2]
  · intro hne
    by_contra hc
    push_neg at hc
    simp [edit_order, hauth, hc.1, hc.2] at hne
  · intro h1 h2 h3
    simp [edit_market, hauth, h1, h2, h3]
  · intro hne
    by_contra hc
    push_neg at hc
    simp [edit_market, hauth, hc.1, hc.2.1, hc.2.2] at hne

/-- Witness for C9: with a valid key, editing the disallowed field
`status` is refused and the table is returned unchanged. -/
theorem C9_field_allow_list_witness :
    edit_order "k" none ⟨some "k", none, false, none, none, none⟩ [] 1
      (some "status") SqlVal.nullv = ([], 400, "invalid field") :=
  (C9_field_allow_list "k" none ⟨some "k", none, false, none, none, none⟩ [] 1
    [] 1 (some "status") SqlVal.nullv (by decide)).1 (by decide) (by decide)

/-- C10: a request carrying no admin key anywhere (or only empty strings)
is rejected by `require_admin` for every configured secret — including the
empty one — and both edit routes answer 401 leaving their tables unchanged. -/
theorem C10_missing_key_rejected (AK : String) (dbPw : Option String)
    (req : AdminRequest)
    (h1 : req.headerKey = none ∨ req.headerKey = some "")
    (h2 : req.queryKey = none ∨ req.queryKey = some "")
    (h3 : req.bodyAdminKey = none ∨ req.bodyAdminKey = some "")
    (h4 : req.bodyAdminKeyCamel = none ∨ req.bodyAdminKeyCamel = some "")
    (h5 : req.bodyAdmin = none ∨ req.bodyAdmin = some "") :
    require_admin AK dbPw req = false ∧
    (∀ (dbO : List OrderRow) (oid : Nat) (field : Option String) (value : SqlVal),
      edit_order AK dbPw req dbO oid field value = (dbO, 401, "unauthorized")) ∧
    (∀ (dbM : List MarketRow) (mid : Nat) (field : Option String) (value : SqlVal),
      edit_market AK dbPw req dbM mid field value = (dbM, 401, "unauthorized")) := by
  have t0 := pyTruthyStr_empty (pyOrStr_empty h1 h2)
  have t1 := pyTruthyStr_empty (pyOrStr_empty (pyOrStr_empty h3 h4) h5)
  have hra : require_admin AK dbPw req = false := by
    cases hj : req.isJson <;> simp [require_admin, hj, t0, t1]
  exact ⟨hra, fun dbO oid field value => by simp [edit_order, hra],
    fun dbM mid field value => by simp [edit_market, hra]⟩

/-- Witness for C10: empty-string key sources with an empty configured
secret are still rejected. -/
theorem C10_missing_key_rejected_witness :
    require_admin "" (some "") ⟨none, some "", true, none, some "", none⟩ = false :=
  (C10_missing_key_rejected "" (some "") ⟨none, some "", true, none, some "", none⟩
    (Or.inl rfl) (Or.inr rfl) (Or.inl rfl) (Or.inr rfl) (Or.inl rfl)).1

/-! ### Remote mirror client (`app.py` lines 52-121)

Byte blobs are `List Nat`. The HTTP layer is the environment: a request
either raises (`netError`, the `except` branches) or yields a response.
The contents response carries the base64-decoded blob directly
(`decoded = none` models a decode failure, which the source swallows to
`content = None`), and the commits response carries the latest commit
time for the tracked path already converted to an epoch (`none` when the
response is empty, malformed, or the lookup raises — all swallowed by the
source). `_sha256_of_bytes` is modelled as an injective digest, so digest
equality coincides with content equality. -/

/-- Opaque byte blob (the serialized database file). -/
abbrev Bytes := List Nat

/-- The GitHub configuration read from the environment. -/
structure GithubConfig where
  token : String
  repo : String
  dbPath : String
deriving DecidableEq, Repr

/-- Outcome of one HTTP request: a response, or a raised network error. -/
inductive NetResult (α : Type) where
  | success : α → NetResult α
  | netError : NetResult α
deriving DecidableEq

/-- Response of the contents endpoint (`GITHUB_API_CONTENTS`). -/
structure ContentsResp where
  status : Nat
  decoded : Option Bytes
  sha : Option String
deriving DecidableEq, Repr

/-- Response of the commits endpoint filtered by path. -/
structure CommitsResp where
  status : Nat
  firstDate : Option Int
deriving DecidableEq, Repr

/-- The two remote calls `get_remote_file_info` makes. -/
structure RemoteWorld where
  contents : NetResult ContentsResp
  commits : NetResult CommitsResp

/-- `_sha256_of_bytes` from `app.py` line 58, modelled as an injective
digest (collision-freeness assumption): equality of digests is equality
of contents. -/
def _sha256_of_bytes (b : Bytes) : Bytes := b

/-- `get_remote_file_info` from `app.py` lines 61-95: missing
configuration or a raised request gives the all-`None` tuple; a non-200
status returns the status with no content; otherwise the decoded content,
revision token, and the latest commit date (itself `None` whenever that
secondary lookup fails in any way). -/
def get_remote_file_info (cfg : GithubConfig) (w : RemoteWorld) :
    Option Nat × Option Bytes × Option String × Option Int :=
  if cfg.token = "" ∨ cfg.repo = "" then (none, none, none, none)
  else
    match w.contents with
    | NetResult.netError => (none, none, none, none)
    | NetResult.success r =>
      if r.status ≠ 200 then (some r.status, none, none, none)
      else
        let commit_date : Option Int :=
          match w.commits with
          | NetResult.netError => none
          | NetResult.success rc => if rc.status = 200 then rc.firstDate else none
        (some r.status, r.decoded, r.sha, commit_date)

/-- One PUT to the contents API: the path written and the bytes sent. -/
structure SyncWrite where
  path : String
  content : Bytes
deriving DecidableEq, Repr

/-- `upload_bytes_to_github` from `app.py` lines 97-121, viewed as the
remote-write trace it generates: no call is made when configuration is
missing; otherwise exactly one PUT carrying the given bytes to the given
path. The commit message and optional revision token only decorate the
request and gate its success, which the callers never branch on, so they
are not part of the trace. -/
def upload_bytes_to_github (cfg : GithubConfig) (path_in_repo : String)
    (content_bytes : Bytes) : List SyncWrite :=
  if cfg.token = "" ∨ cfg.repo = "" then []
  else [⟨path_in_repo, content_bytes⟩]

/-! ### Startup reconciler (`app.py` lines 123-269) -/

/-- Python truthiness of an optional number (`None` and `0` are falsy). -/
def truthyInt : Option Int → Bool
  | none => false
  | some x => decide (x ≠ 0)

/-- The local database file: its bytes and its modification epoch. -/
structure LocalFile where
  content : Bytes
  mtime : Int
deriving DecidableEq, Repr

/-- The mirror's persistent state: the blob at the primary path (if any)
and the epoch of the latest commit touching that path (if known). -/
structure MirrorState where
  primary : Option Bytes
  lastCommit : Option Int
deriving DecidableEq, Repr

/-- Ambient conditions of one reconciler run: whether the two GET requests
succeed, whether PUTs land (they are attempted regardless), the current
epoch (it becomes the mtime of files written now and the commit epoch of
uploads), and the `utcnow` timestamp string used in backup names. -/
structure SyncEnv where
  fetchOk : Bool
  commitsOk : Bool
  putOk : Bool
  now : Int
  ts : String

/-- The remote world a deterministic mirror presents to
`get_remote_file_info` under the given ambient conditions. ISO commit-date
strings are represented by their epoch value, so `iso_to_epoch` is the
identity of this model. -/
def worldOf (env : SyncEnv) (m : MirrorState) : RemoteWorld where
  contents :=
    if env.fetchOk then
      NetResult.success
        { status := if m.primary.isSome then 200 else 404
          decoded := m.primary
          sha := some "sha" }
    else NetResult.netError
  commits :=
    if env.commitsOk then NetResult.success { status := 200, firstDate := m.lastCommit }
    else NetResult.netError

/-- `safe_startup_sync` from `app.py` lines 123-269, branch for branch.
Local file writes are assumed to succeed (the source logs and swallows
their failures without further effect). Returns the resulting local file
and the ordered trace of remote PUT calls issued. -/
def safe_startup_sync (cfg : GithubConfig) (env : SyncEnv)
    (localFile : Option LocalFile) (mirror : MirrorState) :
    Option LocalFile × List SyncWrite :=
  if cfg.token = "" ∨ cfg.repo = "" then (localFile, [])
  else
    let info := get_remote_file_info cfg (worldOf env mirror)
    let status := info.1
    let remote_content := info.2.1
    let remote_commit_date := info.2.2.2
    let remote_epoch : Option Int := remote_commit_date
    let local_epoch : Option Int := localFile.map (fun lf => lf.mtime)
    if status = some 200 ∧ remote_content.isSome then
      match localFile with
      | none =>
        -- local missing: write remote content to local
        (some ⟨remote_content.getD [], env.now⟩, [])
      | some lf =>
        let rc := remote_content.getD []
        if truthyInt remote_epoch = true ∧ truthyInt local_epoch = true then
          let r := remote_epoch.getD 0
          let l := local_epoch.getD 0
          if r > l + 1 then
            (some ⟨rc, env.now⟩, [])
          else if l > r + 1 then
            let backup_path := cfg.dbPath ++ ".bak." ++ env.ts
            let w1 := if rc ≠ [] then upload_bytes_to_github cfg backup_path rc else []
            (localFile, w1 ++ upload_bytes_to_github cfg cfg.dbPath lf.content)
          else
            if _sha256_of_bytes lf.content ≠ _sha256_of_bytes rc then
              let backup_path := cfg.dbPath ++ ".bak." ++ env.ts
              (localFile, upload_bytes_to_github cfg backup_path rc ++
                upload_bytes_to_github cfg cfg.dbPath lf.content)
            else (localFile, [])
        else
          if _sha256_of_bytes lf.content = _sha256_of_bytes rc then
            (localFile, [])
          else if truthyInt local_epoch = true ∧
              (truthyInt remote_epoch = false ∨ local_epoch.getD 0 ≥ remote_epoch.getD 0) then
            let backup_path := cfg.dbPath ++ ".bak." ++ env.ts
            (localFile, upload_bytes_to_github cfg backup_path rc ++
              upload_bytes_to_github cfg cfg.dbPath lf.content)
          else
            (some ⟨rc, env.now⟩, [])
    else
      match localFile with
      | some lf => (localFile, upload_bytes_to_github cfg cfg.dbPath lf.content)
      | none => (localFile, [])

/-- How the mirror state evolves under a trace of PUT calls: when PUTs
land, a write to the primary path replaces the blob there and stamps the
path's latest commit at the current epoch; writes to backup paths do not
touch the primary path (the commit lookup is filtered by path). -/
def applyWrites (cfg : GithubConfig) (env : SyncEnv) (m : MirrorState)
    (ws : List SyncWrite) : MirrorState :=
  if env.putOk then
    ws.foldl (fun acc w =>
      if w.path = cfg.dbPath then { primary := some w.content, lastCommit := some env.now }
      else acc) m
  else m

/-- C8: `get_remote_file_info` is total and never propagates a failure:
missing configuration or a raised contents request yields the all-`None`
tuple; with configuration present, a non-200 response yields the status
with no content, and a failing commit-date lookup degrades only the date. -/
theorem C8_fetch_never_raises (cfg : GithubConfig) (w : RemoteWorld) :
    ((cfg.token = "" ∨ cfg.repo = "") →
      get_remote_file_info cfg w = (none, none, none, none)) ∧
    (w.contents = NetResult.netError →
      get_remote_file_info cfg w = (none, none, none, none)) ∧
    (cfg.token ≠ "" → cfg.repo ≠ "" →
      ∀ r : ContentsResp, w.contents = NetResult.success r → r.status ≠ 200 →
        get_remote_file_info cfg w = (some r.status, none, none, none)) ∧
    (cfg.token ≠ "" → cfg.repo ≠ "" →
      ∀ r : ContentsResp, w.contents = NetResult.success r → r.status = 200 →
        w.commits = NetResult.netError →
        get_remote_file_info cfg w = (some 200, r.decoded, r.sha, none)) := by
  refine ⟨fun hc => by simp [get_remote_file_info, hc], ?_, ?_, ?_⟩
  · intro he
    by_cases hc : cfg.token = "" ∨ cfg.repo = "" <;>
      simp [get_remote_file_info, hc, he]
  · intro h1 h2 r hr hs
    simp [get_remote_file_info, h1, h2, hr, hs]
  · intro h1 h2 r hr hs hcm
    simp [get_remote_file_info, h1, h2, hr, hs, hcm]

/-- Witness for C8: missing token gives the all-`None` tuple. -/
theorem C8_fetch_never_raises_witness :
    get_remote_file_info ⟨"", "o/r", "orders.db"⟩
      ⟨NetResult.netError, NetResult.netError⟩ = (none, none, none, none) :=
  (C8_fetch_never_raises ⟨"", "o/r", "orders.db"⟩
    ⟨NetResult.netError, NetResult.netError⟩).1 (Or.inl rfl)

/-- C2 counterexample: with configuration present, the mirror unreachable
and a local file present, the run is not a no-op: the fetch failure is
indistinguishable from an absent remote, so the reconciler issues one
initial-upload PUT of the local bytes to the primary path. -/
theorem C2_counterexample :
    (safe_startup_sync ⟨"t", "o/r", "orders.db"⟩ ⟨false, true, true, 5, "T"⟩
        (some ⟨[1], 5⟩) ⟨some [9], some 3⟩).2 = [⟨"orders.db", [1]⟩] ∧
    (safe_startup_sync ⟨"t", "o/r", "orders.db"⟩ ⟨false, true, true, 5, "T"⟩
        (some ⟨[1], 5⟩) ⟨some [9], some 3⟩).2 ≠ [] := by decide

/-- C2 (amended): with configuration present and the mirror unreachable,
the reconciler returns normally and leaves the local file unchanged; with
no local file it makes no remote call, but with a local file present it
attempts exactly one upload of the local bytes to the primary path (whose
failure the source swallows). -/
theorem C2_unreachable_amended (tok repo dbPath ts : String) (cOk pOk : Bool)
    (now : Int) (localFile : Option LocalFile) (mirror : MirrorState)
    (h1 : tok ≠ "") (h2 : repo ≠ "") :
    safe_startup_sync ⟨tok, repo, dbPath⟩ ⟨false, cOk, pOk, now, ts⟩ localFile mirror =
      (localFile,
        match localFile with
        | none => []
        | some lf => [⟨dbPath, lf.content⟩]) := by
  cases localFile <;>
    simp [safe_startup_sync, get_remote_file_info, worldOf, upload_bytes_to_github, h1, h2]

/-- Witness for the amended C2 theorem. -/
theorem C2_unreachable_amended_witness :
    safe_startup_sync ⟨"t", "o/r", "p"⟩ ⟨false, true, true, 0, "T"⟩ none ⟨none, none⟩ =
      (none, []) :=
  C2_unreachable_amended "t" "o/r" "p" "T" true true 0 none ⟨none, none⟩
    (by decide) (by decide)

/-- Fetching from a reachable mirror that holds a blob returns status 200,
the blob, the revision token, and the mirror's last-commit date. -/
theorem fetch_reachable (tok repo dbPath ts : String) (pOk : Bool) (now : Int)
    (rb : Bytes) (d : Option Int) (h1 : tok ≠ "") (h2 : repo ≠ "") :
    get_remote_file_info ⟨tok, repo, dbPath⟩
      (worldOf ⟨true, true, pOk, now, ts⟩ ⟨some rb, d⟩) =
      (some 200, some rb, some "sha", d) := by
  simp [get_remote_file_info, worldOf, h1, h2]

/-- Fetching from a reachable mirror with no blob at the primary path
returns a 404 with no content. -/
theorem fetch_absent (tok repo dbPath ts : String) (pOk : Bool) (now : Int)
    (d : Option Int) (h1 : tok ≠ "") (h2 : repo ≠ "") :
    get_remote_file_info ⟨tok, repo, dbPath⟩
      (worldOf ⟨true, true, pOk, now, ts⟩ ⟨none, d⟩) =
      (some 404, none, none, none) := by
  simp [get_remote_file_info, worldOf, h1, h2]

/-- C3 counterexample: in the strictly-newer-local branch with an empty
remote blob, the `if remote_content:` guard (truthiness of `b""`) skips
the backup, so the trace is a single primary write and not a backup
followed by a primary write as the claim states for every remote value. -/
theorem C3_counterexample :
    (safe_startup_sync ⟨"t", "o/r", "orders.db"⟩ ⟨true, true, true, 200, "T1"⟩
        (some ⟨[1], 10⟩) ⟨some [], some 5⟩).2 = [⟨"orders.db", [1]⟩] := by decide

/-- C3 (amended): whenever a remote-replacing branch runs — local strictly
newer with a nonempty remote blob, timestamps equal within tolerance with
differing digests, or timestamps unavailable with differing digests — the
remote-write trace is exactly one backup write to the `.bak.`-timestamped
path followed by one write of the local bytes to the primary path, in that
order; in the strictly-newer branch an empty remote blob skips the backup,
leaving exactly the primary write. -/
theorem C3_backup_then_primary_amended
    (tok repo dbPath ts : String) (now lm : Int) (lb rb : Bytes) (d : Option Int)
    (h1 : tok ≠ "") (h2 : repo ≠ "") :
    (((∃ re, d = some re ∧ re ≠ 0 ∧ lm ≠ 0 ∧ lm > re + 1 ∧ rb ≠ []) ∨
      (∃ re, d = some re ∧ re ≠ 0 ∧ lm ≠ 0 ∧ ¬(re > lm + 1) ∧ ¬(lm > re + 1) ∧ lb ≠ rb) ∨
      ((d = none ∨ d = some 0) ∧ lm ≠ 0 ∧ lb ≠ rb)) →
      (safe_startup_sync ⟨tok, repo, dbPath⟩ ⟨true, true, true, now, ts⟩
          (some ⟨lb, lm⟩) ⟨some rb, d⟩).2 =
        [⟨dbPath ++ ".bak." ++ ts, rb⟩, ⟨dbPath, lb⟩]) ∧
    ((∃ re, d = some re ∧ re ≠ 0 ∧ lm ≠ 0 ∧ lm > re + 1 ∧ rb = []) →
      (safe_startup_sync ⟨tok, repo, dbPath⟩ ⟨true, true, true, now, ts⟩
          (some ⟨lb, lm⟩) ⟨some rb, d⟩).2 = [⟨dbPath, lb⟩]) := by
  constructor
  · rintro (⟨re, rfl, hre, hlm, hgt, hrb⟩ | ⟨re, rfl, hre, hlm, hng, hnl, hne⟩ |
      ⟨hd, hlm, hne⟩)
    · have hf := fetch_reachable tok repo dbPath ts true now rb (some re) h1 h2
      simp [safe_startup_sync, hf, upload_bytes_to_github, truthyInt, h1, h2, hre, hlm,
        show ¬((re : Int) > lm + 1) from by omega, hgt, hrb]
    · have hf := fetch_reachable tok repo dbPath ts true now rb (some re) h1 h2
      simp [safe_startup_sync, hf, upload_bytes_to_github, _sha256_of_bytes, truthyInt,
        h1, h2, hre, hlm, hng, hnl, hne]
    · rcases hd with rfl | rfl
      · have hf := fetch_reachable tok repo dbPath ts true now rb none h1 h2
        simp [safe_startup_sync, hf, upload_bytes_to_github, _sha256_of_bytes, truthyInt,
          h1, h2, hlm, hne]
      · have hf := fetch_reachable tok repo dbPath ts true now rb (some 0) h1 h2
        simp [safe_startup_sync, hf, upload_bytes_to_github, _sha256_of_bytes, truthyInt,
          h1, h2, hlm, hne]
  · rintro ⟨re, rfl, hre, hlm, hgt, rfl⟩
    have hf := fetch_reachable tok repo dbPath ts true now [] (some re) h1 h2
    simp [safe_startup_sync, hf, upload_bytes_to_github, truthyInt, h1, h2, hre, hlm,
      show ¬((re : Int) > lm + 1) from by omega, hgt]

/-- Witness for the amended C3 theorem in the strictly-newer-local branch. -/
theorem C3_backup_then_primary_amended_witness :
    (safe_startup_sync ⟨"t", "o/r", "orders.db"⟩ ⟨true, true, true, 200, "T1"⟩
        (some ⟨[1], 10⟩) ⟨some [7], some 5⟩).2 =
      [⟨"orders.db.bak.T1", [7]⟩, ⟨"orders.db", [1]⟩] :=
  (C3_backup_then_primary_amended "t" "o/r" "orders.db" "T1" 200 10 [1] [7] (some 5)
    (by decide) (by decide)).1
    (Or.inl ⟨5, rfl, by decide, by decide, by decide, by decide⟩)

/-- C1 counterexample: a first run that takes the remote-newer branch
copies the remote blob into the local file, refreshing the local mtime to
"now"; an immediate second run then compares that fresh mtime against the
unchanged remote commit date, takes the local-newer branch, and uploads a
backup plus the (identical) primary content — two remote writes where the
claim requires none. -/
theorem C1_counterexample :
    (safe_startup_sync ⟨"t", "o/r", "orders.db"⟩ ⟨true, true, true, 200, "T1"⟩
        (some ⟨[2], 10⟩) ⟨some [1], some 100⟩).2 = [] ∧
    (safe_startup_sync ⟨"t", "o/r", "orders.db"⟩ ⟨true, true, true, 201, "T2"⟩
        (safe_startup_sync ⟨"t", "o/r", "orders.db"⟩ ⟨true, true, true, 200, "T1"⟩
            (some ⟨[2], 10⟩) ⟨some [1], some 100⟩).1
        (applyWrites ⟨"t", "o/r", "orders.db"⟩ ⟨true, true, true, 200, "T1"⟩
            ⟨some [1], some 100⟩
            (safe_startup_sync ⟨"t", "o/r", "orders.db"⟩ ⟨true, true, true, 200, "T1"⟩
                (some ⟨[2], 10⟩) ⟨some [1], some 100⟩).2)).2 =
      [⟨"orders.db.bak.T2", [1]⟩, ⟨"orders.db", [1]⟩] := by decide

/-- C1 (amended): idempotence holds for first runs that push local content
to the remote: if the first run issues a write to the primary path, the
mirror stays reachable, and the local mtime does not exceed the upload's
commit epoch by more than the 1-second tolerance, then an immediate second
run performs no remote writes. (First runs that instead copy remote
content into the local file refresh the local mtime and are not
idempotent, as the counterexample shows.) -/
theorem C1_idempotent_amended
    (tok repo dbPath ts1 ts2 : String) (now1 now2 lm : Int) (lb : Bytes)
    (p : Option Bytes) (d : Option Int)
    (h1 : tok ≠ "") (h2 : repo ≠ "") (hlm : lm ≠ 0) (hn : now1 ≠ 0)
    (htol : lm ≤ now1 + 1)
    (hup : ∃ w ∈ (safe_startup_sync ⟨tok, repo, dbPath⟩ ⟨true, true, true, now1, ts1⟩
        (some ⟨lb, lm⟩) ⟨p, d⟩).2, w.path = dbPath) :
    (safe_startup_sync ⟨tok, repo, dbPath⟩ ⟨true, true, true, now2, ts2⟩
        (safe_startup_sync ⟨tok, repo, dbPath⟩ ⟨true, true, true, now1, ts1⟩
            (some ⟨lb, lm⟩) ⟨p, d⟩).1
        (applyWrites ⟨tok, repo, dbPath⟩ ⟨true, true, true, now1, ts1⟩ ⟨p, d⟩
            (safe_startup_sync ⟨tok, repo, dbPath⟩ ⟨true, true, true, now1, ts1⟩
                (some ⟨lb, lm⟩) ⟨p, d⟩).2)).2 = [] := by
  have hrun2 : (safe_startup_sync ⟨tok, repo, dbPath⟩ ⟨true, true, true, now2, ts2⟩
      (some ⟨lb, lm⟩) ⟨some lb, some now1⟩).2 = [] := by
    have hf := fetch_reachable tok repo dbPath ts2 true now2 lb (some now1) h1 h2
    by_cases hgt : (now1 : Int) > lm + 1
    · simp [safe_startup_sync, hf, truthyInt, h1, h2, hn, hlm, hgt]
    · simp [safe_startup_sync, hf, truthyInt, _sha256_of_bytes, h1, h2, hn, hlm, hgt,
        show ¬(lm > now1 + 1) from by omega]
  rcases p with _ | rb
  · have hr1 : safe_startup_sync ⟨tok, repo, dbPath⟩ ⟨true, true, true, now1, ts1⟩
        (some ⟨lb, lm⟩) ⟨none, d⟩ = (some ⟨lb, lm⟩, [⟨dbPath, lb⟩]) := by
      have hf := fetch_absent tok repo dbPath ts1 true now1 d h1 h2
      simp [safe_startup_sync, hf, upload_bytes_to_github, h1, h2]
    rw [hr1]
    simpa [applyWrites] using hrun2
  · rcases d with _ | re
    · -- commit date unknown: hash fallback
      have hf := fetch_reachable tok repo dbPath ts1 true now1 rb none h1 h2
      by_cases heq : lb = rb
      · have hr1 : safe_startup_sync ⟨tok, repo, dbPath⟩ ⟨true, true, true, now1, ts1⟩
            (some ⟨lb, lm⟩) ⟨some rb, none⟩ = (some ⟨lb, lm⟩, []) := by
          simp [safe_startup_sync, hf, _sha256_of_bytes, truthyInt, heq]
        rw [hr1] at hup
        simp at hup
      · have hr1 : safe_startup_sync ⟨tok, repo, dbPath⟩ ⟨true, true, true, now1, ts1⟩
            (some ⟨lb, lm⟩) ⟨some rb, none⟩ =
            (some ⟨lb, lm⟩, [⟨dbPath ++ ".bak." ++ ts1, rb⟩, ⟨dbPath, lb⟩]) := by
          simp [safe_startup_sync, hf, upload_bytes_to_github, _sha256_of_bytes, truthyInt,
            h1, h2, hlm, heq]
        rw [hr1]
        simpa [applyWrites] using hrun2
    · by_cases hre : re = 0
      · -- epoch 0 is falsy in Python: hash fallback, as above
        subst hre
        have hf := fetch_reachable tok repo dbPath ts1 true now1 rb (some 0) h1 h2
        by_cases heq : lb = rb
        · have hr1 : safe_startup_sync ⟨tok, repo, dbPath⟩ ⟨true, true, true, now1, ts1⟩
              (some ⟨lb, lm⟩) ⟨some rb, some 0⟩ = (some ⟨lb, lm⟩, []) := by
            simp [safe_startup_sync, hf, _sha256_of_bytes, truthyInt, heq]
          rw [hr1] at hup
          simp at hup
        · have hr1 : safe_startup_sync ⟨tok, repo, dbPath⟩ ⟨true, true, true, now1, ts1⟩
              (some ⟨lb, lm⟩) ⟨some rb, some 0⟩ =
              (some ⟨lb, lm⟩, [⟨dbPath ++ ".bak." ++ ts1, rb⟩, ⟨dbPath, lb⟩]) := by
            simp [safe_startup_sync, hf, upload_bytes_to_github, _sha256_of_bytes, truthyInt,
              h1, h2, hlm, heq]
          rw [hr1]
          simpa [applyWrites] using hrun2
      · have hf := fetch_reachable tok repo dbPath ts1 true now1 rb (some re) h1 h2
        by_cases hgt1 : (re : Int) > lm + 1
        · -- remote newer: no remote writes on run 1, contradicting hup
          have hr1 : safe_startup_sync ⟨tok, repo, dbPath⟩ ⟨true, true, true, now1, ts1⟩
              (some ⟨lb, lm⟩) ⟨some rb, some re⟩ = (some ⟨rb, now1⟩, []) := by
            simp [safe_startup_sync, hf, truthyInt, h1, h2, hre, hlm, hgt1]
          rw [hr1] at hup
          simp at hup
        · by_cases hgt2 : lm > re + 1
          · -- local newer: optional backup, then primary upload
            by_cases hrb : rb = []
            · subst hrb
              have hr1 : safe_startup_sync ⟨tok, repo, dbPath⟩ ⟨true, true, true, now1, ts1⟩
                  (some ⟨lb, lm⟩) ⟨some [], some re⟩ = (some ⟨lb, lm⟩, [⟨dbPath, lb⟩]) := by
                simp [safe_startup_sync, hf, upload_bytes_to_github, truthyInt,
                  h1, h2, hre, hlm, hgt1, hgt2]
              rw [hr1]
              simpa [applyWrites] using hrun2
            · have hr1 : safe_startup_sync ⟨tok, repo, dbPath⟩ ⟨true, true, true, now1, ts1⟩
                  (some ⟨lb, lm⟩) ⟨some rb, some re⟩ =
                  (some ⟨lb, lm⟩, [⟨dbPath ++ ".bak." ++ ts1, rb⟩, ⟨dbPath, lb⟩]) := by
                simp [safe_startup_sync, hf, upload_bytes_to_github, truthyInt,
                  h1, h2, hre, hlm, hgt1, hgt2, hrb]
              rw [hr1]
              simpa [applyWrites] using hrun2
          · -- timestamps within tolerance: digest comparison
            by_cases heq : lb = rb
            · have hr1 : safe_startup_sync ⟨tok, repo, dbPath⟩ ⟨true, true, true, now1, ts1⟩
                  (some ⟨lb, lm⟩) ⟨some rb, some re⟩ = (some ⟨lb, lm⟩, []) := by
                simp [safe_startup_sync, hf, _sha256_of_bytes, truthyInt, hre, hlm,
                  hgt1, hgt2, heq]
              rw [hr1] at hup
              simp at hup
            · have hr1 : safe_startup_sync ⟨tok, repo, dbPath⟩ ⟨true, true, true, now1, ts1⟩
                  (some ⟨lb, lm⟩) ⟨some rb, some re⟩ =
                  (some ⟨lb, lm⟩, [⟨dbPath ++ ".bak." ++ ts1, rb⟩, ⟨dbPath, lb⟩]) := by
                simp [safe_startup_sync, hf, upload_bytes_to_github, _sha256_of_bytes,
                  truthyInt, h1, h2, hre, hlm, hgt1, hgt2, heq]
              rw [hr1]
              simpa [applyWrites] using hrun2

/-- Witness for the amended C1 theorem: after a local-newer first run
uploads, the second run is digest-equal and writes nothing. -/
theorem C1_idempotent_amended_witness :
    (safe_startup_sync ⟨"t", "o/r", "orders.db"⟩ ⟨true, true, true, 201, "T2"⟩
        (safe_startup_sync ⟨"t", "o/r", "orders.db"⟩ ⟨true, true, true, 200, "T1"⟩
            (some ⟨[2], 150⟩) ⟨some [1], some 100⟩).1
        (applyWrites ⟨"t", "o/r", "orders.db"⟩ ⟨true, true, true, 200, "T1"⟩
            ⟨some [1], some 100⟩
            (safe_startup_sync ⟨"t", "o/r", "orders.db"⟩ ⟨true, true, true, 200, "T1"⟩
                (some ⟨[2], 150⟩) ⟨some [1], some 100⟩).2)).2 = [] :=
  C1_idempotent_amended "t" "o/r" "orders.db" "T1" "T2" 200 201 150 [2]
    (some [1]) (some 100) (by decide) (by decide) (by decide) (by decide)
    (by decide) (by decide)

end Favhome
